import Mathlib

/-
  Shallow embedding of the CryptoAnalyzer Pro frontend core:
  the formatter helpers of Dashboard.tsx, the authentication and routing
  logic of App.tsx, the login form's credential check of Login.tsx, and
  the query-cache/refresh configuration of index.tsx.

  JavaScript numbers are modelled as the inductive type JSNum: a finite
  rational, NaN, +Infinity or -Infinity.  The comparison, division,
  toFixed and Intl.NumberFormat semantics used by the formatter are
  reproduced for that domain.
-/

namespace CryptoAnalyzer

/-- A JavaScript number: a finite value (modelled as a rational) or one of
the non-finite values NaN, +Infinity, -Infinity. -/
inductive JSNum where
  | finite (q : ℚ)
  | nan
  | posInf
  | negInf
deriving DecidableEq

/-- JavaScript `x >= c` for a finite literal `c`: NaN compares false with
everything, +Infinity is above every finite value, -Infinity below. -/
def JSNum.jsGe (x : JSNum) (c : ℚ) : Bool :=
  match x with
  | .finite q => decide (c ≤ q)
  | .nan => false
  | .posInf => true
  | .negInf => false

/-- JavaScript `x / c` for a finite positive literal `c`. -/
def JSNum.divC (x : JSNum) (c : ℚ) : JSNum :=
  match x with
  | .finite q => .finite (q / c)
  | .nan => .nan
  | .posInf => .posInf
  | .negInf => .negInf

/-- Two-digit zero-padded rendering of a value below 100. -/
def pad2 (n : Nat) : String :=
  if n < 10 then "0" ++ toString n else toString n

/-- Three-digit zero-padded rendering of a value below 1000 (a thousands
group in a grouped decimal rendering). -/
def pad3 (n : Nat) : String :=
  if n < 10 then "00" ++ toString n
  else if n < 100 then "0" ++ toString n
  else toString n

/-- `toFixed(2)` on a non-negative rational per the ECMAScript algorithm:
the integer `n` minimising the distance of `n / 100` to the value, ties
taking the larger `n`, rendered with exactly two fraction digits. -/
def toFixed2Pos (q : ℚ) : String :=
  let n : Nat := (Rat.floor (q * 100 + 1 / 2)).toNat
  toString (n / 100) ++ "." ++ pad2 (n % 100)

/-- `toFixed(2)` on a finite rational: the ECMAScript algorithm extracts
the sign first and rounds the absolute value. -/
def toFixed2 (q : ℚ) : String :=
  if q < 0 then "-" ++ toFixed2Pos (-q) else toFixed2Pos q

/-- `toFixed(2)` on a JavaScript number: non-finite values render as their
global string forms. -/
def JSNum.toFixed2 (x : JSNum) : String :=
  match x with
  | .finite q => CryptoAnalyzer.toFixed2 q
  | .nan => "NaN"
  | .posInf => "Infinity"
  | .negInf => "-Infinity"

/-- Insert a comma after every three digits of a reversed digit list; the
counter holds how many digits remain in the current group. -/
def groupDigitsRev : Nat → List Char → List Char
  | _, [] => []
  | 0, c :: cs => ',' :: c :: groupDigitsRev 2 cs
  | k + 1, c :: cs => c :: groupDigitsRev k cs

/-- Integer part of a currency rendering with en-US thousands grouping. -/
def groupNat (n : Nat) : String :=
  ⟨(groupDigitsRev 3 (Nat.repr n).data.reverse).reverse⟩

/-- `Intl.NumberFormat('en-US', { style: 'currency', currency: 'USD',
minimumFractionDigits: 2, maximumFractionDigits: 2 }).format` on a finite
value: sign, dollar sign, grouped integer part, two fraction digits,
rounding half away from zero. -/
def formatCurrencyQ (q : ℚ) : String :=
  let n : Nat := (Rat.floor (|q| * 100 + 1 / 2)).toNat
  (if q < 0 then "-$" else "$") ++ groupNat (n / 100) ++ "." ++ pad2 (n % 100)

/-- `formatCurrency` from Dashboard.tsx (lines 131-138): formats the value
with Intl.NumberFormat en-US USD currency, 2 fraction digits.  On
non-finite input Intl.NumberFormat renders the NaN / infinity symbols. -/
def formatCurrency (v : JSNum) : String :=
  match v with
  | .finite q => formatCurrencyQ q
  | .nan => "$NaN"
  | .posInf => "$∞"
  | .negInf => "-$∞"

/-- `formatLargeNumber` from Dashboard.tsx (lines 140-149): suffix tiers
T / B / M selected top-down by `value >= 1e12`, `>= 1e9`, `>= 1e6`, with
fallback to `formatCurrency`. -/
def formatLargeNumber (v : JSNum) : String :=
  if v.jsGe 1000000000000 then "$" ++ (v.divC 1000000000000).toFixed2 ++ "T"
  else if v.jsGe 1000000000 then "$" ++ (v.divC 1000000000).toFixed2 ++ "B"
  else if v.jsGe 1000000 then "$" ++ (v.divC 1000000).toFixed2 ++ "M"
  else formatCurrency v

/-- `getPriceChangeColor` from Dashboard.tsx (lines 151-155): the trend
colour of a finite 24h change value. -/
def getPriceChangeColor (change : ℚ) : String :=
  if change > 0 then "success.main"
  else if change < 0 then "error.main"
  else "text.secondary"

/-- A screen the router can render: the login (session-entry) screen or
the dashboard. -/
inductive Screen where
  | loginScreen
  | dashboardScreen
deriving DecidableEq

/-- A requested browser path: the three declared routes of App.tsx plus an
arbitrary unknown path (the `*` route). -/
inductive Path where
  | login
  | dashboard
  | root
  | other (unknown : String)
deriving DecidableEq

/-- What a route element evaluates to: a rendered screen or a `Navigate`
redirect to another path. -/
inductive RouteResult where
  | screen (s : Screen)
  | redirect (p : Path)
deriving DecidableEq

/-- The `Routes` table of App.tsx (lines 39-67) as a function of the
authentication flag: `/login` renders Login unless authenticated (then
redirects to `/dashboard`); `/dashboard` renders Dashboard only when
authenticated (else redirects to `/login`); `/` redirects by the flag;
any other path redirects to `/`. -/
def routesFor (isAuthenticated : Bool) : Path → RouteResult
  | .login =>
      if isAuthenticated then .redirect .dashboard else .screen .loginScreen
  | .dashboard =>
      if isAuthenticated then .screen .dashboardScreen else .redirect .login
  | .root =>
      .redirect (if isAuthenticated then .dashboard else .login)
  | .other _ => .redirect .root

/-- Follow redirects of the route table until a screen renders (the chains
of App.tsx have length at most three, so any fuel of at least four is
enough). -/
def resolveRoute (isAuthenticated : Bool) : Nat → Path → Option Screen
  | 0, _ => none
  | fuel + 1, p =>
      match routesFor isAuthenticated p with
      | .screen s => some s
      | .redirect q => resolveRoute isAuthenticated fuel q

/-- The App.tsx state: the `isAuthenticated` React state together with the
persisted `auth_token` localStorage entry. -/
structure AppState where
  isAuthenticated : Bool
  authToken : Option String
deriving DecidableEq

/-- `handleLogin` from App.tsx (lines 21-24): persists the token under
`auth_token` and marks the session authenticated. -/
def handleLogin (token : String) (_s : AppState) : AppState :=
  { isAuthenticated := true, authToken := some token }

/-- `handleLogout` from App.tsx (lines 27-30): removes the persisted token
and marks the session unauthenticated. -/
def handleLogout (_s : AppState) : AppState :=
  { isAuthenticated := false, authToken := none }

/-- The startup effect of App.tsx (lines 15-18): reads the persisted
token and sets `isAuthenticated` to its JavaScript truthiness (`!!token`),
so both an absent key and an empty string count as unauthenticated. -/
def startupIsAuthenticated : Option String → Bool
  | none => false
  | some t => !(t == "")

/-- The credential check of Login.tsx `onSubmit` (lines 36-57): accepts
exactly the pair admin@cryptoanalyzer.com / admin123 and mints the mock
token `'mock-jwt-token-' + Date.now()`; anything else is rejected. -/
def validateCredentials (email password : String) (now : Nat) : Option String :=
  if email == "admin@cryptoanalyzer.com" && password == "admin123" then
    some ("mock-jwt-token-" ++ toString now)
  else
    none

/-- `onSubmit` from Login.tsx threaded through App.tsx: on success the
token is handed to `handleLogin`; on failure only the local error text is
set and the app state is untouched.  Returns the new app state and the
token produced, if any. -/
def onSubmit (email password : String) (now : Nat) (s : AppState) :
    AppState × Option String :=
  match validateCredentials email password now with
  | some token => (handleLogin token s, some token)
  | none => (s, none)

/-- The react-query client configuration from index.tsx (lines 13-22):
`retry: 3`, `retryDelay: 1000`, `staleTime: 5 * 60 * 1000`,
`cacheTime: 10 * 60 * 1000`. -/
structure QueryConfig where
  retry : Nat
  retryDelay : Nat
  staleTime : Nat
  cacheTime : Nat
deriving DecidableEq

/-- The default options of the `QueryClient` created in index.tsx. -/
def queryClientDefaults : QueryConfig :=
  { retry := 3, retryDelay := 1000, staleTime := 5 * 60 * 1000
    cacheTime := 10 * 60 * 1000 }

/-- An Instrument Record as returned by the mock fetcher of Dashboard.tsx
(the `CryptoData` interface, lines 41-48). -/
structure CryptoData where
  symbol : String
  name : String
  price : ℚ
  change24h : ℚ
  volume : ℚ
  marketCap : ℚ
deriving DecidableEq

/-- The result of the mock fetcher inside `useQuery('cryptoData', ...)` of
Dashboard.tsx (lines 61-102). -/
def mockCryptoData : List CryptoData :=
  [ { symbol := "BTC", name := "Bitcoin", price := 67500,
      change24h := (2.4 : ℚ), volume := 28000000000,
      marketCap := 1320000000000 },
    { symbol := "ETH", name := "Ethereum", price := 4350,
      change24h := (3.1 : ℚ), volume := 15000000000,
      marketCap := 523000000000 },
    { symbol := "UNI", name := "Uniswap", price := (11.47 : ℚ),
      change24h := (8.7 : ℚ), volume := 245000000,
      marketCap := 8900000000 },
    { symbol := "ADA", name := "Cardano", price := (0.52 : ℚ),
      change24h := (-1.2 : ℚ), volume := 180000000,
      marketCap := 18500000000 },
    { symbol := "TAO", name := "Bittensor", price := (425.30 : ℚ),
      change24h := (15.8 : ℚ), volume := 89000000,
      marketCap := 3200000000 } ]

/-- The `useQuery` options passed in Dashboard.tsx (lines 104-110). -/
structure UseQueryOptions where
  refetchInterval : Nat
deriving DecidableEq

/-- The options of the `cryptoData` query: `refetchInterval: 30000`. -/
def cryptoDataOptions : UseQueryOptions :=
  { refetchInterval := 30000 }

/-- Absolute time of the k-th periodic tick after mount (the timer fires
every `refetchInterval` milliseconds while a subscriber is mounted). -/
def timerTick (opts : UseQueryOptions) (k : Nat) : Nat :=
  (k + 1) * opts.refetchInterval

/-- Cache state for one query identity: the last successful data, when it
was fetched, and whether a fetch is currently in flight.

Modelled from the spec: the market-data cache machinery is provided by the
react-query library and is not among the repository sources; only its
configuration (index.tsx and the `useQuery` call of Dashboard.tsx) is. -/
structure QueryCacheState where
  data : Option (List CryptoData)
  fetchedAt : Option Nat
  inFlight : Bool
deriving DecidableEq

/-- How a fetch can be requested: by a new subscription, by the periodic
refresh timer, or by the manual refresh action. -/
inductive FetchTrigger where
  | subscribe
  | timer
  | manual
deriving DecidableEq

/-- Whether the cached entry is missing or older than the staleness
threshold at time `now`.

Modelled from the spec: a cached entry younger than the staleness
threshold is served without a network fetch when a consumer subscribes. -/
def entryIsStale (cfg : QueryConfig) (now : Nat) (s : QueryCacheState) : Bool :=
  match s.fetchedAt with
  | none => true
  | some t => decide (cfg.staleTime < now - t)

/-- Whether a trigger at time `now` issues a network fetch.

Modelled from the spec: never more than one in-flight fetch per query
identity (a trigger while a fetch is in flight joins it); a subscription
fetches only when the entry is missing or stale; the periodic timer and
the manual refresh request a fetch regardless of staleness. -/
def requestsFetch (cfg : QueryConfig) (trigger : FetchTrigger) (now : Nat)
    (s : QueryCacheState) : Bool :=
  if s.inFlight then false
  else
    match trigger with
    | .subscribe => entryIsStale cfg now s
    | .timer => true
    | .manual => true

/-- `getOrSubscribe` for one query identity: returns the updated cache
state and whether a fetch was issued.

Modelled from the spec: registers interest and triggers an initial fetch
exactly when no fresh entry exists and no fetch is already in flight. -/
def getOrSubscribe (cfg : QueryConfig) (now : Nat) (s : QueryCacheState) :
    QueryCacheState × Bool :=
  if requestsFetch cfg .subscribe now s then
    ({ s with inFlight := true }, true)
  else
    (s, false)

/-- Status of a Cache Entry. -/
inductive FetchStatus where
  | idle
  | loading
  | success
  | error
deriving DecidableEq

/-- The retry-relevant part of a Cache Entry: its status and the count of
failed attempts of the current fetch cycle. -/
structure CacheEntry where
  status : FetchStatus
  retryCount : Nat
deriving DecidableEq

/-- One fetch cycle with retries: attempt `i` succeeds when `outcomes i`
is true; a failure increments `retryCount` and, if attempts remain, waits
`delay` milliseconds and retries; a success resets `retryCount` to 0 and
sets status success; exhausting all attempts surfaces status error.
Returns the final entry and the list of delays waited between attempts.

Modelled from the spec: the retry machinery is provided by react-query
and is not among the repository sources; only its configuration
(`retry: 3`, `retryDelay: 1000` in index.tsx) is. -/
def attemptLoop : Nat → Nat → (Nat → Bool) → Nat → CacheEntry →
    CacheEntry × List Nat
  | 0, _, _, _, e => ({ e with status := .error }, [])
  | remaining + 1, i, outcomes, delay, e =>
      if outcomes i then ({ e with status := .success, retryCount := 0 }, [])
      else
        let failed : CacheEntry := { e with retryCount := e.retryCount + 1 }
        match remaining with
        | 0 => ({ failed with status := .error }, [])
        | r + 1 =>
            let rest := attemptLoop (r + 1) (i + 1) outcomes delay failed
            (rest.1, delay :: rest.2)

/-- A full fetch with the configured retry policy, starting from entry
`e` in status loading. -/
def fetchWithRetry (cfg : QueryConfig) (outcomes : Nat → Bool)
    (e : CacheEntry) : CacheEntry × List Nat :=
  attemptLoop cfg.retry 0 outcomes cfg.retryDelay { e with status := .loading }

/-- C1: the claim says formatCurrency and formatLargeNumber explicitly
reject non-finite input (NaN, +Infinity, -Infinity) and never return a
rendered string containing NaN or Infinity text.  The code has no
validation at all: both functions are total on non-finite input and
render the NaN / Infinity text that Intl.NumberFormat and toFixed
produce, so the claim fails on the code. -/
theorem formatter_nonfinite_renders_text :
    formatCurrency JSNum.nan = "$NaN"
  ∧ formatLargeNumber JSNum.nan = "$NaN"
  ∧ formatCurrency JSNum.posInf = "$∞"
  ∧ formatLargeNumber JSNum.posInf = "$InfinityT"
  ∧ formatCurrency JSNum.negInf = "-$∞"
  ∧ formatLargeNumber JSNum.negInf = "-$∞" :=
  ⟨rfl, rfl, rfl, rfl, rfl, rfl⟩

/-- C2: for every finite value v, formatLargeNumber selects its tier by
inclusive lower bounds evaluated top-down: v ≥ 1e12 renders v/1e12 with
2 decimals and suffix T; else v ≥ 1e9 the same with 1e9 and B; else
v ≥ 1e6 with 1e6 and M; otherwise it returns formatCurrency v — in
particular every v < 1e6 (hence every positive such v) falls back to
formatCurrency. -/
theorem formatLargeNumber_tier_selection (q : ℚ) :
    ((1000000000000 : ℚ) ≤ q →
      formatLargeNumber (.finite q) = "$" ++ toFixed2 (q / 1000000000000) ++ "T")
  ∧ ((1000000000 : ℚ) ≤ q → q < 1000000000000 →
      formatLargeNumber (.finite q) = "$" ++ toFixed2 (q / 1000000000) ++ "B")
  ∧ ((1000000 : ℚ) ≤ q → q < 1000000000 →
      formatLargeNumber (.finite q) = "$" ++ toFixed2 (q / 1000000) ++ "M")
  ∧ (q < 1000000 → formatLargeNumber (.finite q) = formatCurrency (.finite q)) := by
  refine ⟨fun h => ?_, fun h1 h2 => ?_, fun h1 h2 => ?_, fun h => ?_⟩
  · simp [formatLargeNumber, JSNum.jsGe, JSNum.divC, JSNum.toFixed2, h]
  · simp [formatLargeNumber, JSNum.jsGe, JSNum.divC, JSNum.toFixed2, h1,
      not_le.mpr h2]
  · have h3 : q < 1000000000000 := h2.trans (by norm_num)
    simp [formatLargeNumber, JSNum.jsGe, JSNum.divC, JSNum.toFixed2, h1,
      not_le.mpr h2, not_le.mpr h3]
  · have h9 : q < 1000000000 := h.trans (by norm_num)
    have h12 : q < 1000000000000 := h.trans (by norm_num)
    simp [formatLargeNumber, JSNum.jsGe, not_le.mpr h, not_le.mpr h9,
      not_le.mpr h12]

/-- Witness for C2: the T tier at the concrete value 2.5e12. -/
theorem formatLargeNumber_tier_selection_witness :
    (1000000000000 : ℚ) ≤ 2500000000000
  ∧ formatLargeNumber (.finite 2500000000000) = "$2.50T" := by
  have h : (1000000000000 : ℚ) ≤ 2500000000000 := by norm_num
  have he := (formatLargeNumber_tier_selection 2500000000000).1 h
  refine ⟨h, ?_⟩
  rw [he]
  with_unfolding_all rfl

/-- C8: getPriceChangeColor returns the positive colour iff the change is
greater than 0, the negative colour iff it is less than 0, and the
neutral colour iff it equals 0. -/
theorem getPriceChangeColor_trichotomy (x : ℚ) :
    (getPriceChangeColor x = "success.main" ↔ 0 < x)
  ∧ (getPriceChangeColor x = "error.main" ↔ x < 0)
  ∧ (getPriceChangeColor x = "text.secondary" ↔ x = 0) := by
  unfold getPriceChangeColor
  rcases lt_trichotomy x 0 with h | h | h
  · have h0 : ¬x > 0 := by linarith
    rw [if_neg h0, if_pos h]
    exact ⟨⟨fun he => absurd he (by decide), fun hp => absurd hp h0⟩,
           ⟨fun _ => h, fun _ => rfl⟩,
           ⟨fun he => absurd he (by decide),
            fun hz => absurd (hz ▸ h) (lt_irrefl 0)⟩⟩
  · subst h
    rw [if_neg (lt_irrefl 0), if_neg (lt_irrefl 0)]
    exact ⟨⟨fun he => absurd he (by decide), fun hp => absurd hp (lt_irrefl 0)⟩,
           ⟨fun he => absurd he (by decide), fun hn => absurd hn (lt_irrefl 0)⟩,
           ⟨fun _ => rfl, fun _ => rfl⟩⟩
  · rw [if_pos h]
    exact ⟨⟨fun _ => h, fun _ => rfl⟩,
           ⟨fun he => absurd he (by decide), fun hn => absurd hn (by linarith)⟩,
           ⟨fun he => absurd he (by decide),
            fun hz => absurd (hz ▸ h) (lt_irrefl 0)⟩⟩

/-- C5: the router is a pure function of the authentication state: when
unauthenticated a request for the dashboard resolves to the session-entry
screen; when authenticated a request for the session-entry screen
resolves to the dashboard; any unknown path redirects to root, which
resolves by the same authenticated/unauthenticated rule. -/
theorem viewRouter_redirect_rules (auth : Bool) (unknown : String) :
    resolveRoute false 4 .dashboard = some .loginScreen
  ∧ resolveRoute true 4 .login = some .dashboardScreen
  ∧ routesFor auth (.other unknown) = .redirect .root
  ∧ resolveRoute auth 4 (.other unknown)
      = some (if auth then .dashboardScreen else .loginScreen) := by
  cases auth <;> exact ⟨rfl, rfl, rfl, rfl⟩

/-- C4: submitting admin@cryptoanalyzer.com / admin123 yields the mock
token, authenticates the session and makes the login route resolve to
the dashboard; submitting admin@cryptoanalyzer.com / wrong yields no
token and leaves the app state (and hence every routing decision)
unchanged. -/
theorem login_scenario (now : Nat) (s : AppState) :
    (onSubmit "admin@cryptoanalyzer.com" "admin123" now s).2
      = some ("mock-jwt-token-" ++ toString now)
  ∧ (onSubmit "admin@cryptoanalyzer.com" "admin123" now s).1.isAuthenticated
      = true
  ∧ resolveRoute
      (onSubmit "admin@cryptoanalyzer.com" "admin123" now s).1.isAuthenticated
      4 .login = some .dashboardScreen
  ∧ (onSubmit "admin@cryptoanalyzer.com" "wrong" now s).2 = none
  ∧ (onSubmit "admin@cryptoanalyzer.com" "wrong" now s).1 = s :=
  ⟨rfl, rfl, rfl, rfl, rfl⟩

/-- C9: handleLogout clears the in-memory flag and the persisted token,
is idempotent from any state, and afterwards the dashboard route resolves
to the session-entry screen. -/
theorem logout_clears_and_idempotent (s : AppState) :
    handleLogout s = { isAuthenticated := false, authToken := none }
  ∧ (handleLogout s).authToken = none
  ∧ handleLogout (handleLogout s) = handleLogout s
  ∧ resolveRoute (handleLogout s).isAuthenticated 4 .dashboard
      = some .loginScreen :=
  ⟨rfl, rfl, rfl, rfl⟩

/-- C10: logging in with the empty-string token authenticates the
session in memory (the dashboard resolves), persists the empty string,
yet the startup truthiness check treats that persisted value as
unauthenticated — so authentication in memory diverges from persisted
authentication after a reload. -/
theorem emptyToken_breaks_persistence_invariant (s : AppState) :
    (handleLogin "" s).isAuthenticated = true
  ∧ (handleLogin "" s).authToken = some ""
  ∧ resolveRoute (handleLogin "" s).isAuthenticated 4 .dashboard
      = some .dashboardScreen
  ∧ startupIsAuthenticated (handleLogin "" s).authToken = false :=
  ⟨rfl, rfl, rfl, rfl⟩

/-- C3: with the configured policy (retry 3, retryDelay 1000), a fetch
whose first three attempts all fail surfaces status error with
retryCount 3 after waiting the fixed 1000 ms delay between consecutive
attempts, and a fetch that succeeds at any attempt resets retryCount to 0
and sets status success. -/
theorem retry_policy_three_attempts (e : CacheEntry) (oc : Nat → Bool) :
    (e.retryCount = 0 → oc 0 = false → oc 1 = false → oc 2 = false →
        (fetchWithRetry queryClientDefaults oc e).1.status = .error
      ∧ (fetchWithRetry queryClientDefaults oc e).1.retryCount = 3
      ∧ (fetchWithRetry queryClientDefaults oc e).2 = [1000, 1000])
  ∧ (∀ j, j < 3 → oc j = true → (∀ i, i < j → oc i = false) →
        (fetchWithRetry queryClientDefaults oc e).1.status = .success
      ∧ (fetchWithRetry queryClientDefaults oc e).1.retryCount = 0) := by
  constructor
  · intro h0 o0 o1 o2
    simp [fetchWithRetry, queryClientDefaults, attemptLoop, o0, o1, o2, h0]
  · intro j hj ht hprev
    interval_cases j
    · simp [fetchWithRetry, queryClientDefaults, attemptLoop, ht]
    · have o0 := hprev 0 (by omega)
      simp [fetchWithRetry, queryClientDefaults, attemptLoop, o0, ht]
    · have o0 := hprev 0 (by omega)
      have o1 := hprev 1 (by omega)
      simp [fetchWithRetry, queryClientDefaults, attemptLoop, o0, o1, ht]

/-- Witness for C3: all attempts failing from a fresh entry ends in
status error with retryCount 3 and the two fixed 1-second delays. -/
theorem retry_policy_three_attempts_witness :
    (fetchWithRetry queryClientDefaults (fun _ => false)
        { status := .idle, retryCount := 0 }).1.status = .error
  ∧ (fetchWithRetry queryClientDefaults (fun _ => false)
        { status := .idle, retryCount := 0 }).1.retryCount = 3
  ∧ (fetchWithRetry queryClientDefaults (fun _ => false)
        { status := .idle, retryCount := 0 }).2 = [1000, 1000] :=
  (retry_policy_three_attempts { status := .idle, retryCount := 0 }
    (fun _ => false)).1 rfl rfl rfl rfl

/-- C6: two consecutive getOrSubscribe calls for the same query identity
(no fetch completion in between) never both issue a fetch: if the first
one fetches, the entry is in flight and the second joins it, so at most
one fetch is issued between them. -/
theorem getOrSubscribe_dedup (cfg : QueryConfig) (now1 now2 : Nat)
    (s : QueryCacheState) :
    ((getOrSubscribe cfg now1 s).2
      && (getOrSubscribe cfg now2 (getOrSubscribe cfg now1 s).1).2) = false := by
  cases hf : s.inFlight with
  | true => simp [getOrSubscribe, requestsFetch, hf]
  | false =>
    cases hs : entryIsStale cfg now1 s with
    | true => simp [getOrSubscribe, requestsFetch, hf, hs]
    | false => simp [getOrSubscribe, requestsFetch, hf, hs]

/-- C7: while the entry is not in flight, the periodic timer trigger
requests a fetch even when the cached data is younger than the staleness
threshold — the same state in which a new subscription would not fetch —
and the dashboard timer fires every 30000 ms. -/
theorem periodic_refresh_bypasses_staleness (s : QueryCacheState)
    (now t0 k : Nat) (hf : s.inFlight = false) (ht : s.fetchedAt = some t0)
    (hfresh : now - t0 ≤ queryClientDefaults.staleTime) :
    requestsFetch queryClientDefaults .timer now s = true
  ∧ requestsFetch queryClientDefaults .subscribe now s = false
  ∧ cryptoDataOptions.refetchInterval = 30000
  ∧ timerTick cryptoDataOptions (k + 1) - timerTick cryptoDataOptions k
      = 30000 := by
  refine ⟨?_, ?_, rfl, ?_⟩
  · simp [requestsFetch, hf]
  · have hn : ¬ (queryClientDefaults.staleTime < now - t0) :=
      Nat.not_lt.mpr hfresh
    simp [requestsFetch, entryIsStale, hf, ht, hn]
  · simp only [timerTick, cryptoDataOptions]
    omega

/-- Witness for C7: the scenario of the spec — data fetched 40 seconds
ago (well inside the 5-minute staleness window): the timer fetches, a new
subscription would not. -/
theorem periodic_refresh_bypasses_staleness_witness :
    requestsFetch queryClientDefaults .timer 40000
      { data := some mockCryptoData, fetchedAt := some 0, inFlight := false }
      = true
  ∧ requestsFetch queryClientDefaults .subscribe 40000
      { data := some mockCryptoData, fetchedAt := some 0, inFlight := false }
      = false := by
  have h := periodic_refresh_bypasses_staleness
    { data := some mockCryptoData, fetchedAt := some 0, inFlight := false }
    40000 0 0 rfl rfl (by decide)
  exact ⟨h.1, h.2.1⟩

end CryptoAnalyzer
